import Mathlib

/-!
Verification of the FlightVars background-worker core
(`src/domain/worker.rs`, `src/util.rs`).

The dispatch loop is embedded as a function over the finite list of
channel-receive outcomes the loop observes; handler invocations become an
explicit trace.  The notification channel (`domain/notify.rs`) is not part of
the sources, so its sender and its error type are modelled from the spec's
channel contract.
-/

namespace FlightVars

/-- Modelled from the spec: the transport error of the notification channel
(`domain/notify.rs` is not among the sources); a send fails only because the
receiver is gone (receiver dropped ⇒ delivery impossible). -/
inductive NotifyError where
  | disconnected : NotifyError
deriving DecidableEq, Repr

/-- `enum Envelope` (src/domain/worker.rs): either a domain command or the
shutdown signal.  The domain `Command` type is opaque; it is a type
parameter `C` throughout. -/
inductive Envelope (C : Type) where
  | Cmd : C → Envelope C
  | Shutdown : Envelope C
deriving DecidableEq, Repr

/-- Modelled from the spec: the outcome of one `recv_timeout` call on the
notification channel receiver — `Ok(Some(e))` a message, `Ok(None)` the
timeout elapsed with nothing received, `Err(_)` the channel reported an
error (all senders dropped). -/
inductive RecvOutcome (C : Type) where
  | msg : Envelope C → RecvOutcome C
  | timeout : RecvOutcome C
  | err : NotifyError → RecvOutcome C
deriving DecidableEq, Repr

/-- One synchronous invocation of the `Handle` capability performed by the
dispatch loop: `handler.command(c)` or `handler.poll()`. -/
inductive HandlerCall (C : Type) where
  | command : C → HandlerCall C
  | poll : HandlerCall C
deriving DecidableEq, Repr

/-- `struct Worker` (src/domain/worker.rs): the sending half `tx`, the
receiving half `rx` (their representations are the type parameters `S`, `R`)
and the boolean `run` flag. -/
structure Worker (S R : Type) where
  tx : S
  rx : R
  run : Bool
deriving DecidableEq, Repr

/-- `Worker::shutdown` (src/domain/worker.rs): sets the run flag to false.
Nothing else of the worker is touched. -/
def Worker.shutdown (w : Worker S R) : Worker S R :=
  { w with run := false }

/-- The `while self.run` dispatch loop of `Worker::run`
(src/domain/worker.rs), over the list of receive outcomes the loop observes
in order.  Each iteration matches one outcome exactly as the source does:
`Ok(Some(Shutdown))` calls `self.shutdown()`, `Ok(Some(Cmd(cmd)))` calls
`handler.command(cmd)`, `Ok(None)` calls `handler.poll()`, and the wildcard
arm does nothing.  Returns the trace of handler calls, the final worker and
the outcomes left undrained when the loop exits. -/
def Worker.dispatch (w : Worker S R) :
    List (RecvOutcome C) → List (HandlerCall C) × Worker S R × List (RecvOutcome C)
  | [] => ([], w, [])
  | ev :: rest =>
    if w.run then
      match ev with
      | RecvOutcome.msg Envelope.Shutdown => Worker.dispatch (Worker.shutdown w) rest
      | RecvOutcome.msg (Envelope.Cmd c) =>
        let r := Worker.dispatch w rest
        (HandlerCall.command c :: r.1, r.2)
      | RecvOutcome.timeout =>
        let r := Worker.dispatch w rest
        (HandlerCall.poll :: r.1, r.2)
      | RecvOutcome.err _ => Worker.dispatch w rest
    else ([], w, ev :: rest)

/-- `Worker::run` (src/domain/worker.rs): sets `self.run = true`, then
drives the dispatch loop. -/
def Worker.runWith (w : Worker S R) (events : List (RecvOutcome C)) :
    List (HandlerCall C) × Worker S R × List (RecvOutcome C) :=
  Worker.dispatch { w with run := true } events

/-- The handler call a single receive outcome gives rise to in a Running
iteration, if any: a command delivers `command`, a timeout delivers `poll`,
a shutdown or an error delivers nothing. -/
def callOf : RecvOutcome C → Option (HandlerCall C)
  | RecvOutcome.msg (Envelope.Cmd c) => some (HandlerCall.command c)
  | RecvOutcome.timeout => some HandlerCall.poll
  | _ => none

/-- The handler-call trace a shutdown-free run of receive outcomes produces. -/
def handlerTrace (events : List (RecvOutcome C)) : List (HandlerCall C) :=
  events.filterMap callOf

/-- No shutdown envelope occurs among these receive outcomes. -/
abbrev noShutdown (events : List (RecvOutcome C)) : Prop :=
  RecvOutcome.msg Envelope.Shutdown ∉ events

/-- Modelled from the spec: the state a `NotifySender<Envelope>` handle acts
on (`domain/notify.rs` is not among the sources) — the queue of envelopes
awaiting the single receiver, and whether that receiver is still alive. -/
structure NotifyChannel (C : Type) where
  queue : List (Envelope C)
  receiverAlive : Bool
deriving DecidableEq, Repr

/-- Modelled from the spec: `NotifySender::send` — enqueues the envelope and
succeeds while the receiver is alive; once the receiver is dropped, delivery
is impossible and the send returns the transport error, leaving the queue
unchanged. -/
def NotifySender.send (ch : NotifyChannel C) (e : Envelope C) :
    NotifyChannel C × Except NotifyError Unit :=
  if ch.receiverAlive then
    ({ ch with queue := ch.queue ++ [e] }, Except.ok ())
  else
    (ch, Except.error NotifyError.disconnected)

/-- `struct Consumer` (src/domain/worker.rs): holds a clone of the channel
sender, represented by the channel state it acts on. -/
structure Consumer (C : Type) where
  sender : NotifyChannel C
deriving DecidableEq, Repr

/-- `impl Consume for Consumer`, method `consume` (src/domain/worker.rs):
`self.sender.send(Envelope::Cmd(cmd))`, returning the sender's result. -/
def Consumer.consume (con : Consumer C) (cmd : C) :
    Consumer C × Except NotifyError Unit :=
  let r := NotifySender.send con.sender (Envelope.Cmd cmd)
  ({ sender := r.1 }, r.2)

/-- Modelled from the spec: the error `thread::JoinHandle::join` reports when
the worker thread terminated abnormally. -/
inductive JoinError where
  | panicked : JoinError
deriving DecidableEq, Repr

/-- The observable steps `WorkerStub::shutdown` performs, in order: sending
the shutdown envelope, logging a failed send as a diagnostic, joining the
child thread, logging a failed join as a diagnostic. -/
inductive ShutdownStep (C : Type) where
  | sendEnvelope : Envelope C → ShutdownStep C
  | logSendError : NotifyError → ShutdownStep C
  | joinChild : ShutdownStep C
  | logJoinError : JoinError → ShutdownStep C
deriving DecidableEq, Repr

/-- `struct WorkerStub` (src/domain/worker.rs): the channel sender and the
join handle of the worker thread, the latter represented by the outcome the
eventual join reports. -/
structure WorkerStub (C : Type) where
  sender : NotifyChannel C
  child : Except JoinError Unit
deriving Repr

/-- `WorkerStub::shutdown` (src/domain/worker.rs): sends `Envelope::Shutdown`
and logs any send error, then joins the child and logs any join error.
Returns the step trace and the unit value the Rust method returns — neither
failure is propagated. -/
def WorkerStub.shutdown (stub : WorkerStub C) : List (ShutdownStep C) × Unit :=
  let s := NotifySender.send stub.sender Envelope.Shutdown
  let sendLog : List (ShutdownStep C) :=
    match s.2 with
    | Except.ok _ => []
    | Except.error e => [ShutdownStep.logSendError e]
  let joinLog : List (ShutdownStep C) :=
    match stub.child with
    | Except.ok _ => []
    | Except.error e => [ShutdownStep.logJoinError e]
  (ShutdownStep.sendEnvelope Envelope.Shutdown :: sendLog
     ++ ShutdownStep.joinChild :: joinLog, ())

/-- `io::ErrorKind` restricted to the one kind `src/util.rs` constructs. -/
inductive IoErrorKind where
  | brokenPipe : IoErrorKind
deriving DecidableEq, Repr

/-- `io::Error` as observable from `src/util.rs`: a kind and a message. -/
structure IoError where
  kind : IoErrorKind
  message : String
deriving DecidableEq, Repr

/-- `mpsc::SendError<T>` of the standard library: carries back the value
that could not be sent. -/
structure SendError (T : Type) where
  value : T
deriving DecidableEq, Repr

/-- The state a standard `mpsc::Sender<T>` acts on, by its documented
contract: the queued values and whether the receiver is still alive. -/
structure MpscChannel (T : Type) where
  queue : List T
  receiverAlive : Bool
deriving DecidableEq, Repr

/-- `mpsc::Sender::send` by its documented contract: enqueues and succeeds
while the receiver is alive; otherwise fails with `SendError` carrying the
unsent value back, leaving the queue unchanged. -/
def mpscSend (ch : MpscChannel T) (v : T) : MpscChannel T × Except (SendError T) Unit :=
  if ch.receiverAlive then
    ({ ch with queue := ch.queue ++ [v] }, Except.ok ())
  else
    (ch, Except.error ⟨v⟩)

/-- `impl<T> Consume for mpsc::Sender<T>` (src/util.rs): `self.send(value)`
with every error mapped, by `map_err`, to
`io::Error::new(io::ErrorKind::BrokenPipe, "cannot write to mpsc::Sender")`. -/
def mpscSenderConsume (ch : MpscChannel T) (v : T) : MpscChannel T × Except IoError Unit :=
  let r := mpscSend ch v
  (r.1,
   match r.2 with
   | Except.ok _ => Except.ok ()
   | Except.error _ =>
     Except.error { kind := IoErrorKind.brokenPipe, message := "cannot write to mpsc::Sender" })

section DispatchLemmas

variable {S R C : Type}

theorem dispatch_nil (w : Worker S R) :
    Worker.dispatch w ([] : List (RecvOutcome C)) = ([], w, []) := rfl

theorem dispatch_cons_cmd (w : Worker S R) (c : C) (rest : List (RecvOutcome C))
    (hw : w.run = true) :
    Worker.dispatch w (RecvOutcome.msg (Envelope.Cmd c) :: rest)
      = (HandlerCall.command c :: (Worker.dispatch w rest).1, (Worker.dispatch w rest).2) := by
  simp [Worker.dispatch, hw]

theorem dispatch_cons_timeout (w : Worker S R) (rest : List (RecvOutcome C))
    (hw : w.run = true) :
    Worker.dispatch w (RecvOutcome.timeout :: rest)
      = (HandlerCall.poll :: (Worker.dispatch w rest).1, (Worker.dispatch w rest).2) := by
  simp [Worker.dispatch, hw]

theorem dispatch_cons_err (w : Worker S R) (e : NotifyError) (rest : List (RecvOutcome C))
    (hw : w.run = true) :
    Worker.dispatch w (RecvOutcome.err e :: rest) = Worker.dispatch w rest := by
  simp [Worker.dispatch, hw]

theorem dispatch_cons_shutdown (w : Worker S R) (rest : List (RecvOutcome C))
    (hw : w.run = true) :
    Worker.dispatch w (RecvOutcome.msg Envelope.Shutdown :: rest)
      = Worker.dispatch (Worker.shutdown w) rest := by
  simp [Worker.dispatch, hw]

theorem dispatch_stopped (w : Worker S R) (ev : RecvOutcome C)
    (rest : List (RecvOutcome C)) (hw : w.run = false) :
    Worker.dispatch w (ev :: rest) = ([], w, ev :: rest) := by
  simp [Worker.dispatch, hw]

/-- A shutdown-free prefix of receive outcomes is drained first, producing
exactly its handler trace, before the loop goes on to the rest. -/
theorem dispatch_append (w : Worker S R) (pre post : List (RecvOutcome C))
    (hw : w.run = true) (hpre : noShutdown pre) :
    Worker.dispatch w (pre ++ post)
      = (handlerTrace pre ++ (Worker.dispatch w post).1, (Worker.dispatch w post).2) := by
  induction pre with
  | nil => simp [handlerTrace]
  | cons ev rest ih =>
    have hrest : noShutdown rest := fun h => hpre (List.mem_cons_of_mem _ h)
    have hev : ev ≠ RecvOutcome.msg Envelope.Shutdown := by
      intro h
      exact hpre (h ▸ List.mem_cons_self _ _)
    cases ev with
    | msg e =>
      cases e with
      | Cmd c =>
        rw [List.cons_append, dispatch_cons_cmd w c _ hw, ih hrest]
        simp [handlerTrace, callOf]
      | Shutdown => exact absurd rfl hev
    | timeout =>
      rw [List.cons_append, dispatch_cons_timeout w _ hw, ih hrest]
      simp [handlerTrace, callOf]
    | err e =>
      rw [List.cons_append, dispatch_cons_err w e _ hw, ih hrest]
      simp [handlerTrace, callOf]

end DispatchLemmas

section Claims

variable {S R C T : Type}

/-- C1: if the channel yields a `Shutdown` envelope during an iteration of
`Worker::run`, the loop transitions to Stopped (`run = false`) and exits
after that iteration: the handler trace covers only the outcomes before the
shutdown, no further envelope is drained (the outcomes after the shutdown
are returned untouched), and the loop terminates for every outcome sequence
containing a shutdown. -/
theorem run_stops_at_first_shutdown (w : Worker S R) (pre post : List (RecvOutcome C))
    (hpre : noShutdown pre) :
    Worker.runWith w (pre ++ RecvOutcome.msg Envelope.Shutdown :: post)
      = (handlerTrace pre, { w with run := false }, post) := by
  unfold Worker.runWith
  rw [dispatch_append _ pre _ rfl hpre, dispatch_cons_shutdown _ _ rfl]
  cases post with
  | nil => simp [Worker.shutdown, dispatch_nil]
  | cons p ps => simp [Worker.shutdown, dispatch_stopped]

/-- Witness for C1 at a concrete input: a timeout and one command are
dispatched, the shutdown stops the loop, and the command queued after the
shutdown is not drained. -/
theorem run_stops_at_first_shutdown_witness :
    noShutdown [RecvOutcome.timeout, RecvOutcome.msg (Envelope.Cmd (1 : Nat))] ∧
    Worker.runWith (Worker.mk () () true)
        ([RecvOutcome.timeout, RecvOutcome.msg (Envelope.Cmd (1 : Nat))]
          ++ RecvOutcome.msg Envelope.Shutdown :: [RecvOutcome.msg (Envelope.Cmd 2)])
      = ([HandlerCall.poll, HandlerCall.command 1], Worker.mk () () false,
         [RecvOutcome.msg (Envelope.Cmd 2)]) :=
  ⟨by decide, by exact run_stops_at_first_shutdown (Worker.mk () () true) _ _ (by decide)⟩

/-- C2: in a Running iteration, a `Cmd(c)` envelope invokes
`handler.command` exactly once with the value `c` and the loop continues
with the same (still Running) worker; a timeout invokes `handler.poll` and
the loop likewise continues Running. -/
theorem dispatch_cmd_and_timeout (w : Worker S R) (c : C) (rest : List (RecvOutcome C))
    (hw : w.run = true) :
    Worker.dispatch w (RecvOutcome.msg (Envelope.Cmd c) :: rest)
        = (HandlerCall.command c :: (Worker.dispatch w rest).1, (Worker.dispatch w rest).2) ∧
    Worker.dispatch w (RecvOutcome.timeout :: rest)
        = (HandlerCall.poll :: (Worker.dispatch w rest).1, (Worker.dispatch w rest).2) :=
  ⟨dispatch_cons_cmd w c rest hw, dispatch_cons_timeout w rest hw⟩

/-- Witness for C2 at a concrete input. -/
theorem dispatch_cmd_and_timeout_witness :
    (Worker.mk () () true : Worker Unit Unit).run = true ∧
    (Worker.dispatch (Worker.mk () () true) [RecvOutcome.msg (Envelope.Cmd (5 : Nat))]
        = ([HandlerCall.command 5], Worker.mk () () true, []) ∧
     Worker.dispatch (Worker.mk () () true) ([RecvOutcome.timeout] : List (RecvOutcome Nat))
        = ([HandlerCall.poll], Worker.mk () () true, [])) :=
  ⟨rfl, by exact dispatch_cmd_and_timeout (Worker.mk () () true) 5 [] rfl⟩

/-- C3: commands are delivered in exactly their arrival order.  For `c1`
queued before `c2` (with no shutdown before `c2`'s delivery),
`handler.command c1` occurs strictly before `handler.command c2` in the
trace, and the calls between them are exactly those the outcomes between
the two arrivals give rise to — a poll arises only from a timeout outcome,
never displacing an already-queued command. -/
theorem commands_in_fifo_order (w : Worker S R) (xs ys zs : List (RecvOutcome C)) (c1 c2 : C)
    (hw : w.run = true) (hxs : noShutdown xs) (hys : noShutdown ys) :
    (Worker.dispatch w
        (xs ++ RecvOutcome.msg (Envelope.Cmd c1)
          :: (ys ++ RecvOutcome.msg (Envelope.Cmd c2) :: zs))).1
      = handlerTrace xs ++ HandlerCall.command c1
          :: (handlerTrace ys ++ HandlerCall.command c2 :: (Worker.dispatch w zs).1) := by
  have e1 := dispatch_append w xs
    (RecvOutcome.msg (Envelope.Cmd c1) :: (ys ++ RecvOutcome.msg (Envelope.Cmd c2) :: zs)) hw hxs
  have e2 := dispatch_cons_cmd w c1 (ys ++ RecvOutcome.msg (Envelope.Cmd c2) :: zs) hw
  have e3 := dispatch_append w ys (RecvOutcome.msg (Envelope.Cmd c2) :: zs) hw hys
  have e4 := dispatch_cons_cmd w c2 zs hw
  simp [e1, e2, e3, e4]

/-- Witness for C3 at a concrete input: the trace shows `command 1` strictly
before `command 2`, with the interleaved poll coming from the timeout
outcome between them. -/
theorem commands_in_fifo_order_witness :
    (Worker.mk () () true : Worker Unit Unit).run = true ∧
    noShutdown ([RecvOutcome.timeout] : List (RecvOutcome Nat)) ∧
    noShutdown ([RecvOutcome.err NotifyError.disconnected] : List (RecvOutcome Nat)) ∧
    (Worker.dispatch (Worker.mk () () true)
        (([RecvOutcome.timeout] : List (RecvOutcome Nat))
          ++ RecvOutcome.msg (Envelope.Cmd 1)
            :: ([RecvOutcome.err NotifyError.disconnected]
                ++ RecvOutcome.msg (Envelope.Cmd 2) :: [RecvOutcome.timeout]))).1
      = [HandlerCall.poll, HandlerCall.command 1, HandlerCall.command 2, HandlerCall.poll] :=
  ⟨rfl, by decide, by decide,
   by exact commands_in_fifo_order (Worker.mk () () true) [RecvOutcome.timeout]
        [RecvOutcome.err NotifyError.disconnected] [RecvOutcome.timeout] 1 2 rfl
        (by decide) (by decide)⟩

/-- C4: `Consumer::consume` wraps the command in `Envelope::Cmd` and
forwards it to the channel sender, returning the sender's result unchanged:
on success `Ok(())` with the wrapped command enqueued, on failure the
sender's transport error as is. -/
theorem consumer_consume_wraps_and_forwards (con : Consumer C) (cmd : C) :
    (Consumer.consume con cmd).2 = (NotifySender.send con.sender (Envelope.Cmd cmd)).2 ∧
    Consumer.consume con cmd
      = (if con.sender.receiverAlive then
           ({ sender :=
                { con.sender with queue := con.sender.queue ++ [Envelope.Cmd cmd] } },
            Except.ok ())
         else (con, Except.error NotifyError.disconnected)) := by
  refine ⟨rfl, ?_⟩
  rcases con with ⟨⟨q, alive⟩⟩
  cases alive <;> simp [Consumer.consume, NotifySender.send]

/-- C5: `WorkerStub::shutdown` is best-effort and always completes with
unit: the join step is performed for every stub, and neither failure is
propagated as a typed result — when the send of the shutdown envelope fails
(receiver gone) the failure is only logged as a diagnostic, the sequence is
not aborted and the join step still runs, and when the join fails that
failure too is only logged as a diagnostic. -/
theorem stub_shutdown_best_effort (stub : WorkerStub C) (q : List (Envelope C))
    (jr : Except JoinError Unit) (ch : NotifyChannel C) (je : JoinError) :
    (WorkerStub.shutdown stub).2 = () ∧
    ShutdownStep.joinChild ∈ (WorkerStub.shutdown stub).1 ∧
    ShutdownStep.logSendError NotifyError.disconnected
        ∈ (WorkerStub.shutdown (WorkerStub.mk (NotifyChannel.mk q false) jr)).1 ∧
    ShutdownStep.joinChild
        ∈ (WorkerStub.shutdown (WorkerStub.mk (NotifyChannel.mk q false) jr)).1 ∧
    ShutdownStep.logJoinError je
        ∈ (WorkerStub.shutdown (WorkerStub.mk ch (Except.error je))).1 := by
  refine ⟨rfl, ?_, ?_, ?_, ?_⟩
  · rcases stub with ⟨⟨q2, alive⟩, jr2⟩
    cases alive <;> cases jr2 <;> simp [WorkerStub.shutdown, NotifySender.send]
  · cases jr <;> simp [WorkerStub.shutdown, NotifySender.send]
  · cases jr <;> simp [WorkerStub.shutdown, NotifySender.send]
  · rcases ch with ⟨q2, alive⟩
    cases alive <;> simp [WorkerStub.shutdown, NotifySender.send]

/-- C6: when the channel reports an error (permanent closure, all senders
dropped), the Running iteration is a no-op: no handler call is emitted, the
outcome is swallowed, and the loop continues with the worker unchanged —
still Running, not exiting. -/
theorem closed_channel_is_noop (w : Worker S R) (e : NotifyError)
    (rest : List (RecvOutcome C)) (hw : w.run = true) :
    Worker.dispatch w (RecvOutcome.err e :: rest) = Worker.dispatch w rest ∧
    (Worker.dispatch w ([RecvOutcome.err e] : List (RecvOutcome C))).2.1 = w := by
  refine ⟨dispatch_cons_err w e rest hw, ?_⟩
  simp [Worker.dispatch, hw]

/-- Witness for C6 at a concrete input. -/
theorem closed_channel_is_noop_witness :
    (Worker.mk () () true : Worker Unit Unit).run = true ∧
    (Worker.dispatch (Worker.mk () () true)
        (RecvOutcome.err NotifyError.disconnected :: ([RecvOutcome.timeout] : List (RecvOutcome Nat)))
        = Worker.dispatch (Worker.mk () () true) [RecvOutcome.timeout] ∧
     (Worker.dispatch (Worker.mk () () true)
        ([RecvOutcome.err NotifyError.disconnected] : List (RecvOutcome Nat))).2.1
        = Worker.mk () () true) :=
  ⟨rfl,
   by exact closed_channel_is_noop (Worker.mk () () true) NotifyError.disconnected
        [RecvOutcome.timeout] rfl⟩

/-- C7: `Worker::run` sets the run flag to true at the start of every call,
so a worker whose previous loop reached Stopped behaves on a fresh `run`
call exactly as a Running one — the prior flag value is irrelevant and the
first queued command is dispatched again. -/
theorem run_restartable (w : Worker S R) (events rest : List (RecvOutcome C)) (c : C) :
    Worker.runWith (Worker.shutdown w) events = Worker.runWith w events ∧
    (Worker.runWith (Worker.shutdown w)
        (RecvOutcome.msg (Envelope.Cmd c) :: rest)).1.head?
      = some (HandlerCall.command c) := by
  refine ⟨rfl, ?_⟩
  simp [Worker.runWith, Worker.dispatch, Worker.shutdown]

/-- C9: the `Consume` implementation for `mpsc::Sender<T>` succeeds exactly
when the send succeeds, and maps every send failure to the fixed
`io::Error` of kind `BrokenPipe` with message
"cannot write to mpsc::Sender", discarding the original `SendError` and the
unsent value it carried. -/
theorem mpsc_consume_maps_error (ch : MpscChannel T) (v : T) :
    mpscSenderConsume ch v
      = ((mpscSend ch v).1,
         if ch.receiverAlive then Except.ok ()
         else Except.error
           { kind := IoErrorKind.brokenPipe, message := "cannot write to mpsc::Sender" }) := by
  rcases ch with ⟨q, alive⟩
  cases alive <;> simp [mpscSenderConsume, mpscSend]

/-- C10: `Worker::shutdown` only clears the run flag: the `tx` and `rx`
halves are left exactly as they were (for every representation of the
channel halves, so no channel operation is performed), and the run flag
becomes false. -/
theorem worker_shutdown_frame (w : Worker S R) :
    Worker.shutdown w = { tx := w.tx, rx := w.rx, run := false } ∧
    (Worker.shutdown w).tx = w.tx ∧ (Worker.shutdown w).rx = w.rx ∧
    (Worker.shutdown w).run = false :=
  ⟨rfl, rfl, rfl, rfl⟩

end Claims

end FlightVars
